import Mathlib

/-!
Verification of the fastloop trading skill (`fastloop_trader.py`).

The Python source is embedded shallowly: external I/O (the price feed, the
market-discovery endpoint, the trading SDK) is represented by explicit
response parameters, Python floats are modelled as exact rationals, and the
JSON payloads the code reads are modelled as structures holding exactly the
fields the code touches.
-/

namespace FastLoop

/-- One kline record from the price feed.  The Python code receives each
candle as an array and reads index 1 (the open price, in `res[0][1]`),
index 4 (the close price, in `res[-1][4]`) and index 5 (the volume, in
`c[5]`); those three positions are the fields here. -/
structure Candle where
  openPrice : ℚ
  closePrice : ℚ
  volume : ℚ
  deriving DecidableEq, Repr

/-- Value of the `direction` field of the momentum dict: the string "up" or
"down". -/
inductive Direction where
  | up
  | down
  deriving DecidableEq, Repr

/-- The dict returned by `get_binance_momentum` on success (lines 98–103).
Every key, `volume_ratio` included, is present unconditionally. -/
structure Momentum where
  momentum_pct : ℚ
  direction : Direction
  price_now : ℚ
  price_then : ℚ
  volume_ratio : ℚ
  deriving DecidableEq, Repr

/-- A market listing returned by the discovery endpoint.  The code reads
`m.get("question","")` and `m.get("slug","")`; the provider also carries an
`active` flag, which is modelled so that claims about it can be stated. -/
structure MarketListing where
  question : String
  slug : String
  active : Bool
  deriving DecidableEq, Repr

/-- Result of `_api_request`: either the parsed JSON payload, or the
`{"error": str(e)}` dict produced by the `except` branch (line 90). -/
inductive ApiResponse (α : Type) where
  | success (v : α)
  | errorDict (msg : String)
  deriving DecidableEq, Repr

/-- The underlying transport outcome handed to `_api_request`: the parsed
response of a completed call, or the exception any stage of the call
(connection, timeout, JSON decoding) raised. -/
abbrev Transport (α : Type) := Except String α

/-- Function `_api_request` (lines 86–90): perform the call and parse the
body; any exception is swallowed and turned into an `{"error": str(e)}`
dict. -/
def _api_request {α : Type} (t : Transport α) : ApiResponse α :=
  match t with
  | .ok v => .success v
  | .error e => .errorDict e

/-- Whether the response dict contains the key `"error"`: exactly the
responses built by the `except` branch of `_api_request` do. -/
def hasErrorKey {α : Type} (r : ApiResponse α) : Bool :=
  match r with
  | .success _ => false
  | .errorDict _ => true

/-- Keys of `ASSET_SYMBOLS` (line 49): the assets the skill knows. -/
inductive Asset where
  | BTC
  | ETH
  | SOL
  deriving DecidableEq, Repr

/-- Table `ASSET_SYMBOLS` (line 49). -/
def ASSET_SYMBOLS : Asset → String
  | .BTC => "BTCUSDT"
  | .ETH => "ETHUSDT"
  | .SOL => "SOLUSDT"

/-- Table `ASSET_PATTERNS` (line 50). -/
def ASSET_PATTERNS : Asset → List String
  | .BTC => ["bitcoin up or down"]
  | .ETH => ["ethereum up or down"]
  | .SOL => ["solana up or down"]

/-- Python's `needle in hay` prefix step: does `needle` start `hay`? -/
def isPrefixL : List Char → List Char → Bool
  | [], _ => true
  | _ :: _, [] => false
  | a :: as, b :: bs => a = b && isPrefixL as bs

/-- Python's substring operator `needle in hay` on strings, over their
character lists. -/
def containsSub (needle : List Char) : List Char → Bool
  | [] => needle.isEmpty
  | c :: t => isPrefixL needle (c :: t) || containsSub needle t

/-- Python `needle in hay` for `String`s. -/
def strIn (needle hay : String) : Bool :=
  containsSub needle.toList hay.toList

/-- Python `str.lower()`, applied character by character (the strings the
code lowers are ASCII question texts). -/
def lowerL (l : List Char) : List Char := l.map Char.toLower

/-- The configuration record `cfg` (lines 35–46, 70), restricted to the keys
the strategy reads plus the two keys (`volume_confidence`, `daily_budget`)
that are declared in `CONFIG_SCHEMA` and appear in the specification's
Config record. -/
structure Config where
  min_momentum_pct : ℚ
  max_position : ℚ
  asset : Asset
  window : String
  lookback_minutes : ℕ
  volume_confidence : Bool
  daily_budget : ℚ
  deriving DecidableEq, Repr

/-- The defaults of `CONFIG_SCHEMA` (lines 35–46). -/
def defaultCfg : Config :=
  { min_momentum_pct := 1/2
    max_position := 5
    asset := .BTC
    window := "5m"
    lookback_minutes := 5
    volume_confidence := true
    daily_budget := 10 }

/-- Function `get_binance_momentum` (lines 92–103).  `symbol` and `lookback` only
shape the request URL (the `symbol` and `limit` query parameters); the
response the transport produced for that request is passed in as `t`.
The code returns `None` when the response is falsy (an empty list) or
contains the key `"error"`; otherwise it reads the OPEN price of the first
candle (`res[0][1]`), the close price of the last candle (`res[-1][4]`),
and always computes `volume_ratio`. -/
def get_binance_momentum (symbol : String) (lookback : ℕ)
    (t : Transport (List Candle)) : Option Momentum :=
  let res := _api_request t
  match res with
  | .errorDict _ => none
  | .success [] => none
  | .success (c0 :: rest) =>
    let p_then := c0.openPrice
    let p_now := (List.getLast (c0 :: rest) (List.cons_ne_nil c0 rest)).closePrice
    let vols := (c0 :: rest).map Candle.volume
    some
      { momentum_pct := ((p_now - p_then) / p_then) * 100
        direction := if p_now > p_then then .up else .down
        price_now := p_now
        price_then := p_then
        volume_ratio :=
          (List.getLast vols (by simp [vols])) / (vols.sum / (vols.length : ℚ)) }

/-- The filter predicate of the list comprehension in `discover_markets`
(line 109): the lower-cased question contains one of the asset's phrase
patterns, and the slug contains the `-{window}-` fragment.  The `active`
flag is not consulted anywhere in the source. -/
def matchesListing (asset : Asset) (window : String) (m : MarketListing) : Bool :=
  (ASSET_PATTERNS asset).any (fun p => containsSub p.toList (lowerL m.question.toList))
    && strIn ("-" ++ window ++ "-") m.slug

/-- Function `discover_markets` (lines 105–109): on a transport failure (or a falsy
response — an empty list filters to the empty list anyway) return `[]`;
otherwise keep the listings matching the question-pattern and slug-fragment
conditions, in the provider's order. -/
def discover_markets (asset : Asset) (window : String)
    (t : Transport (List MarketListing)) : List MarketListing :=
  let res := _api_request t
  match res with
  | .errorDict _ => []
  | .success ms => ms.filter (matchesListing asset window)

/-- The side string passed to `client.trade` (lines 127, 136). -/
inductive Side where
  | buy_yes
  | buy_no
  deriving DecidableEq, Repr

/-- One call to `client.trade(market_id=..., side=..., amount=...)`. -/
structure TradeCall where
  market_id : ℕ
  side : Side
  amount : ℚ
  deriving DecidableEq, Repr

/-- The responses the outside world hands one evaluation cycle: the price
feed's kline payload, the discovery endpoint's market list, the outcome of
`client.import_market` (an exception, or a dict whose `market_id` key may be
absent), and the outcome of `client.trade` (an exception, or a trade id). -/
structure CycleInputs where
  klines : Transport (List Candle)
  markets : Transport (List MarketListing)
  importResult : Except String (Option ℕ)
  tradeResult : Except String ℕ
  deriving Repr

/-- The externally observable effects of one run of
`run_fast_market_strategy`: whether the market-discovery request was issued
(line 123 reached), and the trade submissions handed to the trading
collaborator (line 136). -/
structure CycleOutcome where
  discovered : Bool
  target : Option MarketListing
  tradeCalls : List TradeCall
  deriving DecidableEq, Repr

/-- Function `run_fast_market_strategy` (lines 115–138) as a function of the
configuration and the external responses of the cycle.
Control flow mirrors the source: return early when the momentum signal is
`None` or too weak (line 119); return when no market matched (line 124);
take the first matching market, `markets[0]`, as the target (line 126); pick
the side from the signal direction (line 127); inside the `try`, an
exception from client construction or `import_market`, or a missing
`market_id`, means no trade call is made; otherwise exactly one
`client.trade` call is made — the outcome of that call only affects logging
(the `except` at line 138). -/
def run_fast_market_strategy (cfg : Config) (inp : CycleInputs) : CycleOutcome :=
  let momentum := get_binance_momentum (ASSET_SYMBOLS cfg.asset) cfg.lookback_minutes inp.klines
  match momentum with
  | none => { discovered := false, target := none, tradeCalls := [] }
  | some mo =>
    if |mo.momentum_pct| < cfg.min_momentum_pct then
      { discovered := false, target := none, tradeCalls := [] }
    else
      let markets := discover_markets cfg.asset cfg.window inp.markets
      match markets with
      | [] => { discovered := true, target := none, tradeCalls := [] }
      | tgt :: _ =>
        let side := if mo.direction = .up then Side.buy_yes else Side.buy_no
        match inp.importResult with
        | .error _ => { discovered := true, target := some tgt, tradeCalls := [] }
        | .ok none => { discovered := true, target := some tgt, tradeCalls := [] }
        | .ok (some mid) =>
          { discovered := true
            target := some tgt
            tradeCalls := [{ market_id := mid, side := side, amount := cfg.max_position }] }

/-- Total amount submitted to the trading collaborator over a sequence of
cycles.  The source keeps no `spent_today` ledger: no cycle consults the
amount previous cycles spent, so the total is just the sum over cycles. -/
def total_spent (cfg : Config) (inps : List CycleInputs) : ℚ :=
  (inps.map (fun inp =>
    ((run_fast_market_strategy cfg inp).tradeCalls.map TradeCall.amount).sum)).sum

/-- The outcome of one loop iteration's `try` body (lines 151–154): either
`run_fast_market_strategy` returned, or it raised and the `except Exception`
branch caught the exception. -/
abbrev CycleRun := Except String CycleOutcome

/-- What one iteration of the `while True` loop (lines 150–157) does after
the `try`/`except`: the log lines it printed, the `time.sleep` it performs,
and whether the loop exits. -/
structure LoopIterEffect where
  logged : List String
  sleep_seconds : ℕ
  exits : Bool
  deriving DecidableEq, Repr

/-- One iteration of the main loop (lines 150–157): run the strategy; on an
exception print `Loop Error: ...`; in every case fall through to
`time.sleep(30)` and iterate again — `while True` has no exit path. -/
def loop_iteration (r : CycleRun) : LoopIterEffect :=
  match r with
  | .ok _ => { logged := [], sleep_seconds := 30, exits := false }
  | .error e => { logged := ["Loop Error: " ++ e], sleep_seconds := 30, exits := false }

/-- The effects of the first iterations of the main loop, given the stream
of per-cycle outcomes. -/
def main_loop (rs : List CycleRun) : List LoopIterEffect :=
  rs.map loop_iteration

/-- The momentum formula as the specification words it, for comparison with
the implementation: percentage change between the CLOSE price of the oldest
sample and the close price of the newest sample. -/
def momentum_pct_specFormula : List Candle → ℚ
  | [] => 0
  | c0 :: rest =>
    let oldest := c0
    let newest := List.getLast (c0 :: rest) (List.cons_ne_nil c0 rest)
    (newest.closePrice - oldest.closePrice) / oldest.closePrice * 100

/-- The matcher predicate as the specification words it, for comparison with
the implementation: question contains a per-asset phrase (case-insensitive),
slug embeds the window fragment, AND the active flag is true. -/
def matchesListing_specClaim (asset : Asset) (window : String) (m : MarketListing) : Bool :=
  (ASSET_PATTERNS asset).any (fun p => containsSub p.toList (lowerL m.question.toList))
    && strIn ("-" ++ window ++ "-") m.slug
    && m.active

/-- The volume-ratio field as the specification words it, for comparison
with the implementation: computed (newest volume over the mean of the
volumes in the window) only when `volume_confidence_enabled` is true,
absent otherwise. -/
def volume_ratio_specClaim (enabled : Bool) : List Candle → Option ℚ
  | [] => none
  | c0 :: rest =>
    if enabled then
      let vols := (c0 :: rest).map Candle.volume
      some ((List.getLast vols (by simp [vols])) / (vols.sum / (vols.length : ℚ)))
    else none

/-! Concrete fixtures used by witnesses and counterexamples. -/

/-- A candle that opens at 100 and closes at 102, volume 1. -/
def candleA : Candle := { openPrice := 100, closePrice := 102, volume := 1 }

/-- A candle that opens at 102 and closes at 104, volume 3. -/
def candleB : Candle := { openPrice := 102, closePrice := 104, volume := 3 }

/-- A flat candle: open, close both 100. -/
def candleFlat : Candle := { openPrice := 100, closePrice := 100, volume := 2 }

/-- A listing matching the BTC 5-minute pattern with `active = true`. -/
def listingActive : MarketListing :=
  { question := "Bitcoin Up or Down - October 12, 3AM ET"
    slug := "bitcoin-up-or-down-5m-oct-12"
    active := true }

/-- The same listing with `active = false`. -/
def listingInactive : MarketListing :=
  { question := "Bitcoin Up or Down - October 12, 3AM ET"
    slug := "bitcoin-up-or-down-5m-oct-12"
    active := false }

/-- A full success-path cycle: strong upward momentum (+4%), one matching
market, an import that yields market id 7, a trade that succeeds. -/
def goodInputs : CycleInputs :=
  { klines := .ok [candleA, candleB]
    markets := .ok [listingActive]
    importResult := .ok (some 7)
    tradeResult := .ok 1 }

/-- The momentum signal the code derives from `[candleA, candleB]`:
open of the first candle 100 to close of the last candle 104 is +4%. -/
def goodMomentum : Momentum :=
  { momentum_pct := 4, direction := .up, price_now := 104
    price_then := 100, volume_ratio := 3/2 }

theorem momentum_goodKlines :
    get_binance_momentum "BTCUSDT" 5 (.ok [candleA, candleB]) = some goodMomentum := by
  simp [get_binance_momentum, _api_request, candleA, candleB, List.getLast, goodMomentum]
  norm_num

theorem run_goodInputs :
    run_fast_market_strategy defaultCfg goodInputs =
      { discovered := true, target := some listingActive
        tradeCalls := [{ market_id := 7, side := .buy_yes, amount := 5 }] } := by
  simp only [run_fast_market_strategy, goodInputs, defaultCfg, ASSET_SYMBOLS, momentum_goodKlines,
    goodMomentum]
  norm_num
  simp only [discover_markets, _api_request]
  decide

/-- C10: for any failure of the underlying call or parsing, `_api_request`
returns a dict containing the key `"error"` instead of raising, and
consequently `get_binance_momentum` returns `None` and `discover_markets`
returns the empty list on any transport failure. -/
theorem api_failures_degrade_gracefully :
    ∀ (α : Type) (e : String) (asset : Asset) (window symbol : String) (lookback : ℕ),
      hasErrorKey (_api_request (Except.error e : Transport α)) = true ∧
      get_binance_momentum symbol lookback (.error e) = none ∧
      discover_markets asset window (.error e) = [] := by
  intro α e a w s l
  exact ⟨rfl, rfl, rfl⟩

/-- C9: every loop iteration — whether the strategy call returned or raised —
ends with `exits = false` and a 30-second sleep; a raised exception is
logged as `Loop Error: ...`; over any stream of cycle outcomes the loop
performs one non-exiting iteration per cycle, so no single-cycle error
terminates the process. -/
theorem loop_survives_all_errors :
    (∀ r : CycleRun, (loop_iteration r).exits = false ∧ (loop_iteration r).sleep_seconds = 30) ∧
    (∀ e : String, loop_iteration (.error e) =
      { logged := ["Loop Error: " ++ e], sleep_seconds := 30, exits := false }) ∧
    (∀ rs : List CycleRun, (main_loop rs).length = rs.length ∧
      ((main_loop rs).all fun eff => !eff.exits && eff.sleep_seconds == 30) = true) := by
  refine ⟨fun r => ?_, fun e => rfl, fun rs => ⟨by simp [main_loop], ?_⟩⟩
  · cases r <;> simp [loop_iteration]
  · simp only [main_loop, List.all_eq_true]
    intro eff hmem
    obtain ⟨r, _, hr⟩ := List.mem_map.mp hmem
    subst hr
    cases r <;> simp [loop_iteration]

/-- C4 (amended): the momentum generator returns no signal exactly when the
fetch failed or the response was the empty list; the sample count is never
compared against `lookback`. -/
theorem momentum_none_iff_error_or_empty :
    ∀ (symbol : String) (lookback : ℕ) (t : Transport (List Candle)),
      get_binance_momentum symbol lookback t = none ↔
        (t = .ok [] ∨ ∃ e, t = .error e) := by
  intro s l t
  cases t with
  | error e => simp [get_binance_momentum, _api_request]
  | ok cs => cases cs <;> simp [get_binance_momentum, _api_request]

/-- C4 (counterexample): a window of one sample — fewer than the requested
lookback of 5 — still produces a signal, refuting "fewer than
`lookback_size` samples returns no signal". -/
theorem short_window_still_signals :
    [candleA].length < 5 ∧
    get_binance_momentum "BTCUSDT" 5 (.ok [candleA]) ≠ none := by
  exact ⟨by norm_num, by simp [get_binance_momentum, _api_request]⟩

/-- C1 (amended): on every nonempty kline response, the momentum percentage
is computed from the OPEN price of the oldest candle (`res[0][1]`) to the
close price of the newest candle (`res[-1][4]`):
`momentum_pct = (newest.close - oldest.open) / oldest.open * 100`. -/
theorem momentum_pct_open_based :
    ∀ (symbol : String) (lookback : ℕ) (c0 : Candle) (rest : List Candle),
      (get_binance_momentum symbol lookback (.ok (c0 :: rest))).map Momentum.momentum_pct =
        some ((((c0 :: rest).getLast (List.cons_ne_nil c0 rest)).closePrice - c0.openPrice)
          / c0.openPrice * 100) := by
  intro s l c0 rest
  simp [get_binance_momentum, _api_request]

/-- C1 (counterexample): on the window `[candleA, candleB]` the code yields
+4% (open 100 of the oldest candle to close 104 of the newest), while the
specified close-to-close formula yields 100/51 ≈ 1.96%; the two differ. -/
theorem momentum_uses_open_counterexample :
    (get_binance_momentum "BTCUSDT" 5 (.ok [candleA, candleB])).map Momentum.momentum_pct = some 4 ∧
    momentum_pct_specFormula [candleA, candleB] = 100/51 ∧
    (4 : ℚ) ≠ 100/51 := by
  refine ⟨by rw [momentum_goodKlines]; rfl, ?_, by norm_num⟩
  norm_num [momentum_pct_specFormula, candleA, candleB, List.getLast]

/-- C6: for every computed momentum signal, `direction = up` iff the newest
close price is strictly greater than the oldest reference price, and when
the two prices are equal `momentum_pct = 0` and the direction resolves to
`down`. -/
theorem direction_sign_property :
    ∀ (symbol : String) (lookback : ℕ) (t : Transport (List Candle)) (mo : Momentum),
      get_binance_momentum symbol lookback t = some mo →
        ((mo.direction = .up ↔ mo.price_then < mo.price_now) ∧
         (mo.price_now = mo.price_then → mo.momentum_pct = 0 ∧ mo.direction = .down)) := by
  intro s l t mo h
  cases t with
  | error e => simp [get_binance_momentum, _api_request] at h
  | ok cs =>
    cases cs with
    | nil => simp [get_binance_momentum, _api_request] at h
    | cons c0 rest =>
      simp only [get_binance_momentum, _api_request, Option.some.injEq] at h
      subst h
      constructor
      · simp only [gt_iff_lt]
        split_ifs with hc
        · simp [hc]
        · simp [hc]
      · intro heq
        simp only at heq
        constructor
        · simp only [heq, sub_self, zero_div, zero_mul]
        · simp [heq]

/-- The momentum signal of the flat single-candle window `[candleFlat]`:
zero change, direction down, volume ratio 1. -/
def flatMomentum : Momentum :=
  { momentum_pct := 0, direction := .down, price_now := 100
    price_then := 100, volume_ratio := 1 }

/-- C6 witness: the sign property instantiated on the flat window, where
the prices tie at 100, the momentum is 0 and the direction is down. -/
theorem direction_sign_witness :
    (flatMomentum.direction = .up ↔ flatMomentum.price_then < flatMomentum.price_now) ∧
    (flatMomentum.momentum_pct = 0 ∧ flatMomentum.direction = .down) := by
  have h : get_binance_momentum "BTCUSDT" 1 (.ok [candleFlat]) = some flatMomentum := by
    simp [get_binance_momentum, _api_request, candleFlat, flatMomentum, List.getLast]
  exact ⟨(direction_sign_property "BTCUSDT" 1 _ flatMomentum h).1,
         (direction_sign_property "BTCUSDT" 1 _ flatMomentum h).2 rfl⟩

/-- C7: given the cycle's momentum signal, the pipeline proceeds past the
signal stage (market discovery is reached) iff the absolute momentum meets
the configured threshold — equality is actionable because the code tests
`<` — and a too-weak signal halts the cycle with no market discovery, no
target and no trade. -/
theorem threshold_gates_pipeline :
    ∀ (cfg : Config) (inp : CycleInputs) (mo : Momentum),
      get_binance_momentum (ASSET_SYMBOLS cfg.asset) cfg.lookback_minutes inp.klines = some mo →
        (((run_fast_market_strategy cfg inp).discovered = true) ↔
          cfg.min_momentum_pct ≤ |mo.momentum_pct|) ∧
        (|mo.momentum_pct| < cfg.min_momentum_pct →
          run_fast_market_strategy cfg inp =
            { discovered := false, target := none, tradeCalls := [] }) := by
  intro cfg inp mo h
  by_cases hw : |mo.momentum_pct| < cfg.min_momentum_pct
  · refine ⟨?_, fun _ => ?_⟩
    · simp only [run_fast_market_strategy, h]
      rw [if_pos hw]
      simp [not_le.mpr hw]
    · simp only [run_fast_market_strategy, h]
      rw [if_pos hw]
  · refine ⟨?_, fun hlt => absurd hlt hw⟩
    simp only [run_fast_market_strategy, h]
    rw [if_neg hw]
    cases hms : discover_markets cfg.asset cfg.window inp.markets with
    | nil => simp [hms, not_lt.mp hw]
    | cons t ts =>
      cases hi : inp.importResult with
      | error e => simp [hms, hi, not_lt.mp hw]
      | ok o => cases o <;> simp [hms, hi, not_lt.mp hw]

/-- C7 witness: the threshold gate instantiated on the default
configuration and the +4% success-path cycle. -/
theorem threshold_gates_witness :
    (((run_fast_market_strategy defaultCfg goodInputs).discovered = true) ↔
      defaultCfg.min_momentum_pct ≤ |goodMomentum.momentum_pct|) ∧
    (|goodMomentum.momentum_pct| < defaultCfg.min_momentum_pct →
      run_fast_market_strategy defaultCfg goodInputs =
        { discovered := false, target := none, tradeCalls := [] }) :=
  threshold_gates_pipeline defaultCfg goodInputs goodMomentum (by
    simp [defaultCfg, goodInputs, ASSET_SYMBOLS, momentum_goodKlines])

/-- C5: per evaluation cycle at most one trade call reaches the trading
collaborator, and for an actionable signal with a matched market and a
market import that yields a market id, exactly one trade call is made. -/
theorem at_most_one_trade_per_cycle :
    (∀ (cfg : Config) (inp : CycleInputs),
      (run_fast_market_strategy cfg inp).tradeCalls.length ≤ 1) ∧
    (∀ (cfg : Config) (inp : CycleInputs) (mo : Momentum) (mid : ℕ),
      get_binance_momentum (ASSET_SYMBOLS cfg.asset) cfg.lookback_minutes inp.klines = some mo →
      cfg.min_momentum_pct ≤ |mo.momentum_pct| →
      discover_markets cfg.asset cfg.window inp.markets ≠ [] →
      inp.importResult = .ok (some mid) →
      (run_fast_market_strategy cfg inp).tradeCalls.length = 1) := by
  constructor
  · intro cfg inp
    cases hmo : get_binance_momentum (ASSET_SYMBOLS cfg.asset) cfg.lookback_minutes inp.klines with
    | none => simp [run_fast_market_strategy, hmo]
    | some mo =>
      simp only [run_fast_market_strategy, hmo]
      by_cases hw : |mo.momentum_pct| < cfg.min_momentum_pct
      · rw [if_pos hw]
        simp
      · rw [if_neg hw]
        cases hms : discover_markets cfg.asset cfg.window inp.markets with
        | nil => simp [hms]
        | cons t ts =>
          cases hi : inp.importResult with
          | error e => simp [hms, hi]
          | ok o => cases o <;> simp [hms, hi]
  · intro cfg inp mo mid h hthr hms hi
    simp only [run_fast_market_strategy, h]
    rw [if_neg (not_lt.mpr hthr)]
    cases hms2 : discover_markets cfg.asset cfg.window inp.markets with
    | nil => exact absurd hms2 hms
    | cons t ts => simp [hms2, hi]

/-- C5 witness: the at-most-one and exactly-one bounds instantiated on the
default configuration and the success-path cycle. -/
theorem at_most_one_trade_witness :
    (run_fast_market_strategy defaultCfg goodInputs).tradeCalls.length ≤ 1 ∧
    (run_fast_market_strategy defaultCfg goodInputs).tradeCalls.length = 1 := by
  refine ⟨at_most_one_trade_per_cycle.1 defaultCfg goodInputs,
    at_most_one_trade_per_cycle.2 defaultCfg goodInputs goodMomentum 7 ?_ ?_ ?_ rfl⟩
  · simp [defaultCfg, goodInputs, ASSET_SYMBOLS, momentum_goodKlines]
  · norm_num [goodMomentum, defaultCfg]
  · simp [defaultCfg, goodInputs, discover_markets, _api_request, List.filter]
    decide

/-- C3 (amended): the matcher keeps exactly the listings whose lower-cased
question contains a per-asset phrase pattern and whose slug embeds the
`-window-` fragment — the active flag is never consulted — and the chosen
target is the first matching listing in the provider's order. -/
theorem matcher_filter_and_first_choice :
    (∀ (asset : Asset) (window : String) (ms : List MarketListing),
      discover_markets asset window (.ok ms) = ms.filter (matchesListing asset window) ∧
      (∀ m, m ∈ discover_markets asset window (.ok ms) ↔
        m ∈ ms ∧ matchesListing asset window m = true) ∧
      (discover_markets asset window (.ok ms)).head? = ms.find? (matchesListing asset window)) ∧
    (∀ (cfg : Config) (inp : CycleInputs),
      (run_fast_market_strategy cfg inp).target ≠ none →
      (run_fast_market_strategy cfg inp).target =
        (discover_markets cfg.asset cfg.window inp.markets).head?) := by
  constructor
  · intro asset window ms
    refine ⟨rfl, fun m => ?_, ?_⟩
    · simp [discover_markets, _api_request, List.mem_filter]
    · simp only [discover_markets, _api_request]
      induction ms with
      | nil => simp
      | cons m t ih =>
        by_cases hm : matchesListing asset window m = true
        · simp [List.filter_cons, hm, List.find?_cons_of_pos]
        · simp only [List.filter_cons, hm, if_neg, Bool.false_eq_true, ite_false]
          rw [List.find?_cons_of_neg _ (by simp [hm])]
          exact ih
  · intro cfg inp htgt
    cases hmo : get_binance_momentum (ASSET_SYMBOLS cfg.asset) cfg.lookback_minutes inp.klines with
    | none =>
      exact absurd (by simp [run_fast_market_strategy, hmo]) htgt
    | some mo =>
      by_cases hw : |mo.momentum_pct| < cfg.min_momentum_pct
      · refine absurd ?_ htgt
        simp only [run_fast_market_strategy, hmo]
        rw [if_pos hw]
      · simp only [run_fast_market_strategy, hmo]
        rw [if_neg hw]
        cases hms : discover_markets cfg.asset cfg.window inp.markets with
        | nil => simp [hms]
        | cons t ts =>
          cases hi : inp.importResult with
          | error e => simp [hms, hi]
          | ok o => cases o <;> simp [hms, hi]

/-- C3 (counterexample): a listing with `active = false` whose question and
slug match is kept by the code's filter, while the claims stated filter —
which requires the active flag — rejects it. -/
theorem matcher_ignores_active_counterexample :
    discover_markets .BTC "5m" (.ok [listingInactive]) = [listingInactive] ∧
    listingInactive.active = false ∧
    matchesListing_specClaim .BTC "5m" listingInactive = false := by
  refine ⟨?_, rfl, by decide⟩
  simp [discover_markets, _api_request, List.filter]
  decide

/-- C3 witness: the filter characterisation on a concrete listing list, and
the first-match selection on the success-path cycle. -/
theorem matcher_filter_witness :
    discover_markets .BTC "5m" (.ok [listingInactive]) =
      [listingInactive].filter (matchesListing .BTC "5m") ∧
    (run_fast_market_strategy defaultCfg goodInputs).target =
      (discover_markets defaultCfg.asset defaultCfg.window goodInputs.markets).head? := by
  refine ⟨(matcher_filter_and_first_choice.1 .BTC "5m" [listingInactive]).1,
    matcher_filter_and_first_choice.2 defaultCfg goodInputs ?_⟩
  rw [run_goodInputs]
  simp

/-- C8 (amended): the volume ratio is computed on every successful fetch —
the `volume_confidence` flag is never consulted (the momentum function does
not even receive it) — and the cycle's outcome depends on the signal only
through `momentum_pct` and `direction`, never through `volume_ratio`. -/
theorem volume_ratio_unconditional_and_inert :
    (∀ (symbol : String) (lookback : ℕ) (c0 : Candle) (rest : List Candle),
      (get_binance_momentum symbol lookback (.ok (c0 :: rest))).map Momentum.volume_ratio =
        some (((c0 :: rest).map Candle.volume).getLast (by simp) /
          (((c0 :: rest).map Candle.volume).sum / (((c0 :: rest).map Candle.volume).length : ℚ)))) ∧
    (∀ (cfg : Config) (inp inp' : CycleInputs) (mo mo' : Momentum),
      get_binance_momentum (ASSET_SYMBOLS cfg.asset) cfg.lookback_minutes inp.klines = some mo →
      get_binance_momentum (ASSET_SYMBOLS cfg.asset) cfg.lookback_minutes inp'.klines = some mo' →
      mo.momentum_pct = mo'.momentum_pct →
      mo.direction = mo'.direction →
      inp.markets = inp'.markets →
      inp.importResult = inp'.importResult →
      run_fast_market_strategy cfg inp = run_fast_market_strategy cfg inp') := by
  constructor
  · intro s l c0 rest
    simp [get_binance_momentum, _api_request]
  · intro cfg inp inp' mo mo' h h' hpct hdir hmk himp
    simp only [run_fast_market_strategy, h, h', ← hpct, ← hdir, ← hmk, ← himp]

/-- The two success-path candles with equal volumes 5, giving the same
+4% momentum and direction but volume ratio 1 instead of 3/2. -/
def candleAv : Candle := { openPrice := 100, closePrice := 102, volume := 5 }

/-- The second candle of the equal-volume window. -/
def candleBv : Candle := { openPrice := 102, closePrice := 104, volume := 5 }

/-- The momentum signal of the equal-volume window: identical to
`goodMomentum` except for `volume_ratio`. -/
def goodMomentumAlt : Momentum :=
  { momentum_pct := 4, direction := .up, price_now := 104
    price_then := 100, volume_ratio := 1 }

/-- The success-path cycle with the equal-volume window substituted. -/
def goodInputsAltVol : CycleInputs :=
  { klines := .ok [candleAv, candleBv]
    markets := .ok [listingActive]
    importResult := .ok (some 7)
    tradeResult := .ok 1 }

theorem momentum_altKlines :
    get_binance_momentum "BTCUSDT" 5 (.ok [candleAv, candleBv]) = some goodMomentumAlt := by
  simp [get_binance_momentum, _api_request, candleAv, candleBv, List.getLast, goodMomentumAlt]
  norm_num

/-- C8 witness: two concrete cycles whose signals differ only in
`volume_ratio` (3/2 versus 1) produce identical outcomes. -/
theorem volume_ratio_inert_witness :
    run_fast_market_strategy defaultCfg goodInputs =
      run_fast_market_strategy defaultCfg goodInputsAltVol :=
  volume_ratio_unconditional_and_inert.2 defaultCfg goodInputs goodInputsAltVol
    goodMomentum goodMomentumAlt
    (by simp [defaultCfg, goodInputs, ASSET_SYMBOLS, momentum_goodKlines])
    (by simp [defaultCfg, goodInputsAltVol, ASSET_SYMBOLS, momentum_altKlines])
    rfl rfl rfl rfl

/-- C8 (counterexample): with `volume_confidence_enabled = false` the
specification says no volume ratio is computed, yet the code's momentum
dict carries the computed ratio 3/2 — the flag gates nothing. -/
theorem volume_ratio_always_computed_counterexample :
    (get_binance_momentum "BTCUSDT" 5 (.ok [candleA, candleB])).map Momentum.volume_ratio =
      some (3/2) ∧
    volume_ratio_specClaim false [candleA, candleB] = none := by
  exact ⟨by rw [momentum_goodKlines]; rfl, by simp [volume_ratio_specClaim]⟩

/-- C2: the daily budget is never enforced.  With the default configuration
(`daily_budget = 10`, `max_position = 5`), three successful cycles submit a
total of 15, exceeding the budget, and the third cycle's trade is still
submitted rather than rejected — the code keeps no `spent_today` ledger and
never reads `daily_budget`. -/
theorem budget_never_enforced :
    defaultCfg.daily_budget = 10 ∧
    total_spent defaultCfg [goodInputs, goodInputs, goodInputs] = 15 ∧
    defaultCfg.daily_budget < total_spent defaultCfg [goodInputs, goodInputs, goodInputs] ∧
    (run_fast_market_strategy defaultCfg goodInputs).tradeCalls ≠ [] := by
  have htot : total_spent defaultCfg [goodInputs, goodInputs, goodInputs] = 15 := by
    simp [total_spent, run_goodInputs]
    norm_num
  refine ⟨rfl, htot, ?_, ?_⟩
  · rw [htot]
    norm_num [defaultCfg]
  · rw [run_goodInputs]
    simp

end FastLoop
